import Mathlib

/-!
# polysdk: credential manager and document client

A shallow embedding of `polysdk.go`.

* Go `error` values are identified with their message; `nil` is `none`.
* A `*time.Time` is an optional count of nanoseconds since the epoch, a
  `time.Duration` is a signed 64-bit count of nanoseconds.
* `map[string]interface{}` is an optional association list (`none` is the nil
  map), a slice is an optional list (`none` is the nil slice).
* The collaborators the code calls but does not define (the JSON codec, the
  URL check of `http.NewRequest`, the HTTP transport, the wall clock) are the
  fields of `Env`; every network call is appended to the log of the `World`.
* `Body.Close()` is taken to succeed, so `bodyClose` never panics, and the
  bytes of a response are whatever `ioutil.ReadAll` yields (its error is
  discarded by the code).
* Methods with a value receiver get the client as an argument and return no
  client: Go runs them on a copy. `GetToken` has a pointer receiver and
  returns the updated `Auth`.
-/

namespace polysdk

/-! ## Constants -/

def AccessTokenHeaderName : String := "Access-Token"

def JsonContentType : String := "application/json"

def QxpBaseServerPath : String := "http://api.clouden.io"

def QxpApiLoginPath : String := "/api/v1/warden/login"

/-- The pattern `DataModelPathPattern` applied by `fmt.Sprintf` to four strings. -/
def DataModelPathPattern (a b c d : String) : String :=
  "/api/v1/polyapi/request/system/app/" ++ a ++ "/raw/inner/form/" ++ b ++ "/" ++ c ++ "_" ++ d ++ ".r"

/-- The only login type, `Pwd = LoginType("pwd")`. -/
def Pwd : String := "pwd"

/-! ## Data model -/

/-- A Go error, identified with its message. -/
abbrev Error := String

/-- A dynamically typed value held in an `interface{}`; the client never looks inside one. -/
inductive Value where
  | null
  | bool (b : Bool)
  | num (n : Int)
  | str (s : String)
  | list (xs : List Value)
  | map (m : Option (List (String × Value)))

/-- A `map[string]interface{}`; `none` is the nil map. -/
abbrev Document := Option (List (String × Value))

/-- Go `len` on a map: a nil map has length 0. -/
def len (m : Document) : Nat :=
  match m with
  | none => 0
  | some kvs => kvs.length

/-- Authentication information (`type Auth struct`). -/
structure Auth where
  Username : String
  Password : String
  LoginType : String
  Token : String
  Expiry : Option Int

/-- The `data` member of `TokenResponseBody`. -/
structure TokenResponseData where
  AccessToken : String
  Expiry : Option Int

/-- The login response envelope. -/
structure TokenResponseBody where
  Code : Int
  Data : TokenResponseData
  Msg : String

/-- The zero value of `TokenResponseBody`. -/
def TokenResponseBody.zero : TokenResponseBody :=
  { Code := 0, Data := { AccessToken := "", Expiry := none }, Msg := "" }

/-- Search parameters (`type DataModelSearchParam struct`); the field `Sort` is spelled `Sort'`. -/
structure DataModelSearchParam where
  Query : Document
  Page : Int
  Size : Int
  Sort' : Option (List String)

/-- The value `json.Marshal` sees for a `DataModelSearchParam`, keyed by the struct's json tags. -/
def DataModelSearchParam.toValue (p : DataModelSearchParam) : Value :=
  Value.map (some [
    ("query", Value.map p.Query),
    ("page", Value.num p.Page),
    ("size", Value.num p.Size),
    ("sort", match p.Sort' with
      | none => Value.null
      | some xs => Value.list (xs.map Value.str))])

/-- The client (`type QxDataModelClient struct`): it holds its `Auth` by value. -/
structure QxDataModelClient where
  Auth : Auth
  AppId : String
  ModelCode : String

/-- The `data` member of `ModelResBody`. -/
structure ModelResData where
  Count : Int
  Entity : Document

/-- The single-entity response envelope. -/
structure ModelResBody where
  Code : Int
  Data : ModelResData
  Msg : String

/-- The zero value of `ModelResBody`. -/
def ModelResBody.zero : ModelResBody :=
  { Code := 0, Data := { Count := 0, Entity := none }, Msg := "" }

/-- The `data` member of `ModelSearchResBody`. -/
structure ModelSearchResData where
  Total : Int
  Entities : Option (List Document)

/-- The multi-entity response envelope. -/
structure ModelSearchResBody where
  Code : Int
  Data : ModelSearchResData
  Msg : String

/-- The zero value of `ModelSearchResBody`. -/
def ModelSearchResBody.zero : ModelSearchResBody :=
  { Code := 0, Data := { Total := 0, Entities := none }, Msg := "" }

/-! ## The environment: codec, transport, clock -/

/-- One HTTP POST as it leaves the process. The login call carries no `Access-Token` header. -/
structure Request where
  url : String
  contentType : String
  accessToken : Option String
  body : String

/-- What `http.Post` or `httpClient.Do` hands back. -/
inductive HttpResult where
  | failure (err : Error)
  | response (StatusCode : Int) (body : String)

/-- The observable state: the reading of `time.Now()` and the network calls issued so far. -/
structure World where
  now : Int
  log : List Request

/-- The collaborators of the package. -/
structure Env where
  /-- Function `json.Marshal`. -/
  marshal : Value → Except Error String
  /-- Function `json.Unmarshal` into a `TokenResponseBody`; the target may be changed even on error. -/
  unmarshalToken : String → TokenResponseBody → TokenResponseBody × Option Error
  /-- Function `json.Unmarshal` into a `ModelResBody`. -/
  unmarshalModel : String → ModelResBody → ModelResBody × Option Error
  /-- Function `json.Unmarshal` into a `ModelSearchResBody`. -/
  unmarshalSearch : String → ModelSearchResBody → ModelSearchResBody × Option Error
  /-- The error of `http.NewRequest("POST", url, body)`, if the url does not parse. -/
  newRequest : String → Option Error
  /-- The answer of the transport to a call issued in a given world. -/
  send : World → Request → HttpResult
  /-- The reading of the clock once that call has returned. -/
  tick : World → Request → Int

/-- Perform one network call: log it, advance the clock, return the transport's answer. -/
def World.exchange (env : Env) (w : World) (r : Request) : HttpResult × World :=
  (env.send w r, { now := env.tick w r, log := w.log ++ [r] })

/-! ## Durations -/

/-- The duration `time.Second`, in nanoseconds. -/
def Second : Int := 1000000000

/-- Two's-complement reduction of an integer to the range of `int64`. -/
def wrapInt64 (x : Int) : Int :=
  (x + 2 ^ 63) % 2 ^ 64 - 2 ^ 63

/-- The method `Time.Sub`: the difference `t - u`, saturated to the range of a `Duration`. -/
def Time.Sub (t u : Int) : Int :=
  if t - u > 2 ^ 63 - 1 then 2 ^ 63 - 1
  else if t - u < -(2 ^ 63) then -(2 ^ 63)
  else t - u

/-! ## Credential manager -/

/-- Whether the token has expired (`true`: expired); `now` is the reading of `time.Now()`. -/
def Auth.IsExpiry (auth : Auth) (now : Int) : Bool :=
  match auth.Expiry with
  | none => true
  | some expiry =>
    let subDuration := Time.Sub expiry now
    let subSecond := wrapInt64 (subDuration * Second)
    decide (subSecond < 600)

/-- The request `http.Post` sends to the login endpoint. -/
def Auth.loginRequest (env : Env) (auth : Auth) : Request :=
  let tokenReq := Value.map (some [
    ("username", Value.str auth.Username),
    ("password", Value.str auth.Password),
    ("login_type", Value.str auth.LoginType)])
  let tokenReqJsonByte :=
    match env.marshal tokenReq with
    | .ok bytes => bytes
    | .error _ => ""
  { url := QxpBaseServerPath ++ QxpApiLoginPath, contentType := JsonContentType,
    accessToken := none, body := tokenReqJsonByte }

/-- The method `GetToken`: the token or the error, the `Auth` as the call leaves it, and the world. -/
def Auth.GetToken (env : Env) (auth : Auth) (w : World) : Except Error String × Auth × World :=
  if !auth.IsExpiry w.now then
    (.ok auth.Token, auth, w)
  else
    match w.exchange env (auth.loginRequest env) with
    | (.failure err, w1) => (.error err, auth, w1)
    | (.response _ bodyByte, w1) =>
      match env.unmarshalToken bodyByte TokenResponseBody.zero with
      | (_, some err) => (.error err, auth, w1)
      | (responseBody, none) =>
        if responseBody.Code != 0 then
          (.error responseBody.Msg, auth, w1)
        else
          let auth1 : Auth :=
            { auth with Token := responseBody.Data.AccessToken, Expiry := responseBody.Data.Expiry }
          let _ := auth1.IsExpiry w1.now
          (.ok auth1.Token, auth1, w1)

/-- Build an authentication object. -/
def NewAuth (username password : String) : Auth :=
  { Username := username, Password := password, LoginType := Pwd, Token := "", Expiry := none }

/-! ## Document client -/

/-- Return a client; the `Auth` is copied into it. -/
def NewQxDataModelClient (auth : Auth) (appId modeCode : String) : QxDataModelClient :=
  { Auth := auth, AppId := appId, ModelCode := modeCode }

/-- Build the API path of an action. -/
def QxDataModelClient.buildApiPath (client : QxDataModelClient) (action : String) : String :=
  let apiPath := DataModelPathPattern client.AppId client.ModelCode client.ModelCode action
  apiPath

/-- Run the HTTP request and decode the answer into `v`. Returns the error, `v` as the call
leaves it, and the world. The `Auth` that `GetToken` updates is the one of the receiver's copy
and is dropped on return. -/
def QxDataModelClient.doHttpPost {β : Type} (env : Env) (client : QxDataModelClient)
    (url : String) (requestByte : String) (unmarshal : String → β → β × Option Error) (v : β)
    (w : World) : Option Error × β × World :=
  match env.newRequest url with
  | some err => (some err, v, w)
  | none =>
    match client.Auth.GetToken env w with
    | (.error err, _, w1) => (some err, v, w1)
    | (.ok token, _, w1) =>
      let request : Request :=
        { url := url, contentType := JsonContentType, accessToken := some token,
          body := requestByte }
      match w1.exchange env request with
      | (.failure err, w2) => (some err, v, w2)
      | (.response StatusCode bodyByte, w2) =>
        if StatusCode ≥ 400 then
          (some ("http error:" ++ toString StatusCode), v, w2)
        else
          match unmarshal bodyByte v with
          | (v1, some err) => (some err, v1, w2)
          | (v1, none) => (none, v1, w2)

/-- The request body `{"query": {"term": {"_id": id}}}` of `Get` and `Delete`. -/
def termRequestBody (id : String) : Value :=
  Value.map (some [("query", Value.map (some [("term", Value.map (some [("_id", Value.str id)]))]))])

/-- Query one record. -/
def QxDataModelClient.Get (env : Env) (client : QxDataModelClient) (id : String) (w : World) :
    (Document × Option Error) × World :=
  if id.length == 0 then
    ((none, some "id不能为空"), w)
  else
    let requestBody := termRequestBody id
    match env.marshal requestBody with
    | .error err => ((none, some err), w)
    | .ok requestBodyJsonByte =>
      let apiPath := client.buildApiPath "get"
      match client.doHttpPost env (QxpBaseServerPath ++ apiPath) requestBodyJsonByte
          env.unmarshalModel ModelResBody.zero w with
      | (some err, _, w1) => ((none, some err), w1)
      | (none, getBody, w1) =>
        if getBody.Code != 0 then
          ((none, some getBody.Msg), w1)
        else
          ((getBody.Data.Entity, none), w1)

/-- Create one record. The error of `doHttpPost` is assigned and never looked at. -/
def QxDataModelClient.Create (env : Env) (client : QxDataModelClient) (data : Document)
    (w : World) : (Bool × Document × Option Error) × World :=
  if data.isNone || len data == 0 then
    ((false, none, some "参数不能为空"), w)
  else
    let apiPath := client.buildApiPath "create"
    let requestBody := Value.map (some [("entity", Value.map data)])
    match env.marshal requestBody with
    | .error err => ((false, none, some err), w)
    | .ok requestBodyJsonByte =>
      match client.doHttpPost env (QxpBaseServerPath ++ apiPath) requestBodyJsonByte
          env.unmarshalModel ModelResBody.zero w with
      | (_, createBody, w1) =>
        if createBody.Code != 0 then
          ((false, none, some createBody.Msg), w1)
        else
          ((true, createBody.Data.Entity, none), w1)

/-- The loop of `BatchCreate`: `list` is the slice built so far. -/
def QxDataModelClient.BatchCreate.loop (env : Env) (client : QxDataModelClient) :
    List Document → Option (List Document) → World → (Option (List Document) × Option Error) × World
  | [], list, w => ((list, none), w)
  | data :: rest, list, w =>
    match client.Create env data w with
    | ((_, _, some err), w1) => ((none, some err), w1)
    | ((_, entity, none), w1) =>
      QxDataModelClient.BatchCreate.loop env client rest (some (list.getD [] ++ [entity])) w1

/-- Create records one after the other. -/
def QxDataModelClient.BatchCreate (env : Env) (client : QxDataModelClient)
    (dataList : List Document) (w : World) : (Option (List Document) × Option Error) × World :=
  QxDataModelClient.BatchCreate.loop env client dataList none w

/-- Query several records. -/
def QxDataModelClient.Search (env : Env) (client : QxDataModelClient)
    (searchParam : DataModelSearchParam) (w : World) :
    (Option (List Document) × Int × Option Error) × World :=
  let apiPath := client.buildApiPath "search"
  let searchParam := if searchParam.Page == 0 then { searchParam with Page := 1 } else searchParam
  let searchParam := if searchParam.Size == 0 then { searchParam with Size := 20 } else searchParam
  match env.marshal searchParam.toValue with
  | .error err => ((none, 0, some err), w)
  | .ok requestBody =>
    match client.doHttpPost env (QxpBaseServerPath ++ apiPath) requestBody
        env.unmarshalSearch ModelSearchResBody.zero w with
    | (some err, _, w1) => ((none, 0, some err), w1)
    | (none, searchBody, w1) =>
      if searchBody.Code != 0 then
        ((none, 0, some searchBody.Msg), w1)
      else
        match searchBody.Data.Entities with
        | none => ((some [], 0, none), w1)
        | some entities => ((some entities, searchBody.Data.Total, none), w1)

/-- Delete one record. -/
def QxDataModelClient.Delete (env : Env) (client : QxDataModelClient) (id : String) (w : World) :
    (Bool × Int × Option Error) × World :=
  if id.length == 0 then
    ((false, 0, some "id不能为空"), w)
  else
    let apiPath := client.buildApiPath "delete"
    let requestBody := termRequestBody id
    match env.marshal requestBody with
    | .error err => ((false, 0, some err), w)
    | .ok requestBodyJsonByte =>
      match client.doHttpPost env (QxpBaseServerPath ++ apiPath) requestBodyJsonByte
          env.unmarshalModel ModelResBody.zero w with
      | (some err, _, w1) => ((false, 0, some err), w1)
      | (none, deleteBody, w1) =>
        if deleteBody.Code != 0 then
          ((false, 0, some deleteBody.Msg), w1)
        else
          ((true, deleteBody.Data.Count, none), w1)

/-- Delete the records a query selects. -/
def QxDataModelClient.DeleteByQuery (env : Env) (client : QxDataModelClient) (query : Document)
    (w : World) : (Bool × Int × Option Error) × World :=
  if query.isNone || len query == 0 then
    ((false, 0, some "查询条件不能为空"), w)
  else
    let apiPath := client.buildApiPath "delete"
    let requestBody := Value.map (some [("query", Value.map query)])
    match env.marshal requestBody with
    | .error err => ((false, 0, some err), w)
    | .ok requestBodyJsonByte =>
      match client.doHttpPost env (QxpBaseServerPath ++ apiPath) requestBodyJsonByte
          env.unmarshalModel ModelResBody.zero w with
      | (some err, _, w1) => ((false, 0, some err), w1)
      | (none, deleteBody, w1) =>
        if deleteBody.Code != 0 then
          ((false, 0, some deleteBody.Msg), w1)
        else
          ((true, deleteBody.Data.Count, none), w1)

/-- Update. The parameter `query` is not used by the body. -/
def QxDataModelClient.Update (env : Env) (client : QxDataModelClient) (data : Document)
    (_query : Document) (w : World) : (Bool × Int × Option Error) × World :=
  if data.isNone || len data == 0 then
    ((false, 0, some "data不能为空"), w)
  else
    let requestBody := Value.map (some [("entity", Value.map data)])
    match env.marshal requestBody with
    | .error err => ((false, 0, some err), w)
    | .ok requestBodyJsonByte =>
      let apiPath := client.buildApiPath "update"
      match client.doHttpPost env (QxpBaseServerPath ++ apiPath) requestBodyJsonByte
          env.unmarshalModel ModelResBody.zero w with
      | (some err, _, w1) => ((false, 0, some err), w1)
      | (none, updateBody, w1) =>
        if updateBody.Code != 0 then
          ((false, 0, some updateBody.Msg), w1)
        else
          ((true, updateBody.Data.Count, none), w1)

/-! ## Sample environments -/

namespace Sample

/-- An environment whose codec encodes every value as `"json"` and decodes every body to the
given envelopes, whose login endpoint answers 200 and whose model endpoints answer `crud`;
the clock stands still. -/
def env (crud : HttpResult) (token : TokenResponseBody) (model : ModelResBody)
    (search : ModelSearchResBody) : Env :=
  { marshal := fun _ => .ok "json",
    unmarshalToken := fun _ _ => (token, none),
    unmarshalModel := fun _ _ => (model, none),
    unmarshalSearch := fun _ _ => (search, none),
    newRequest := fun _ => none,
    send := fun _ r =>
      match r.accessToken with
      | none => .response 200 "login"
      | some _ => crud,
    tick := fun w _ => w.now }

/-- A login envelope `code 0, access_token tok1, expiry`. -/
def loginOk (expiry : Int) : TokenResponseBody :=
  { Code := 0, Data := { AccessToken := "tok1", Expiry := some expiry }, Msg := "" }

/-- A world at clock reading `now` in which no call has been made. -/
def start (now : Int) : World := { now := now, log := [] }

/-- A non-empty document. -/
def doc : Document := some [("name", Value.str "x")]

/-- A client built the way the tests build one. -/
def client : QxDataModelClient := NewQxDataModelClient (NewAuth "user" "secret") "2dpjq" "ProviderAttrDef"

/-- A codec that shows the page and size of a search parameter in the bytes it produces;
otherwise like `env` with a 200 answer and zero envelopes. -/
def searchEnv : Env :=
  { env (.response 200 "ok") (loginOk (4600 * Second)) ModelResBody.zero
      ModelSearchResBody.zero with
    marshal := fun v =>
      match v with
      | Value.map (some [("query", _), ("page", Value.num page), ("size", Value.num size),
          ("sort", _)]) => .ok ("page=" ++ toString page ++ ",size=" ++ toString size)
      | _ => .ok "json" }

/-- The entity the sample service echoes. -/
def entity : Document := some [("_id", Value.str "a")]

/-- The sample service: login answers `tok1` expiring at 4600 s, every model call answers
`code 0, count 1` with `entity`. -/
def okEnv : Env :=
  env (.response 200 "ok") (loginOk (4600 * Second))
    { Code := 0, Data := { Count := 1, Entity := entity }, Msg := "" } ModelSearchResBody.zero

/-- A credential that already holds the token `tok0` with the given expiry. -/
def cached (expiry : Int) : Auth :=
  { NewAuth "user" "secret" with Token := "tok0", Expiry := some expiry }

end Sample

/-! ## Runs of `Create` -/

/-- `CreateRun env client docs w ents w1`: starting in world `w`, `Create` is called on the
documents `docs` one after the other, every call returns a nil error, `ents` are the entities
the calls return, in order, and `w1` is the world after the last call. -/
inductive CreateRun (env : Env) (client : QxDataModelClient) :
    List Document → World → List Document → World → Prop where
  | nil (w : World) : CreateRun env client [] w [] w
  | cons {d : Document} {ds : List Document} {w w1 w2 : World} {flag : Bool} {ent : Document}
      {ents : List Document} :
      client.Create env d w = ((flag, ent, none), w1) →
      CreateRun env client ds w1 ents w2 →
      CreateRun env client (d :: ds) w (ent :: ents) w2

/-! ## Auxiliary facts -/

theorem String.length_ne_zero_of_ne_empty {s : String} (h : s ≠ "") : s.length ≠ 0 := by
  intro h0
  apply h
  cases s with
  | mk data =>
    have : data = [] := List.length_eq_zero.mp h0
    subst this
    rfl

theorem nonempty_guard {m : Document} (h : len m ≠ 0) : (m.isNone || len m == 0) = false := by
  cases m with
  | none => exact absurd rfl h
  | some kvs =>
    simp only [Option.isNone_some, Bool.false_or]
    exact beq_false_of_ne h

theorem empty_id_guard {id : String} (h : id ≠ "") : (id.length == 0) = false :=
  beq_false_of_ne (String.length_ne_zero_of_ne_empty h)

/-! ## Validation -/

/-- C5: every operation called with an empty required input returns its validation error
together with the world it was called in, so the clock was not read by a login and the log of
network calls is unchanged (no login exchange, no model request); the flag and count returned
are `false` and `0`, the entity is nil. -/
theorem empty_input_fails_before_network (env : Env) (client : QxDataModelClient)
    (q : Document) (w : World) :
    client.Create env none w = ((false, none, some "参数不能为空"), w) ∧
    client.Create env (some []) w = ((false, none, some "参数不能为空"), w) ∧
    client.Update env none q w = ((false, 0, some "data不能为空"), w) ∧
    client.Update env (some []) q w = ((false, 0, some "data不能为空"), w) ∧
    client.DeleteByQuery env none w = ((false, 0, some "查询条件不能为空"), w) ∧
    client.DeleteByQuery env (some []) w = ((false, 0, some "查询条件不能为空"), w) ∧
    client.Get env "" w = ((none, some "id不能为空"), w) ∧
    client.Delete env "" w = ((false, 0, some "id不能为空"), w) :=
  ⟨rfl, rfl, rfl, rfl, rfl, rfl, rfl, rfl⟩

/-! ## Expiry arithmetic -/

/-- C2 (code defect): `IsExpiry` multiplies the remaining nanoseconds by `time.Second` in
`int64`. With the clock at 1000 s, a token that expires one second later (inside the 600 s
margin) and a token that expired ten seconds earlier are both reported as not expired, and
`GetToken` hands out the expired cached token `tok0` with no login exchange. -/
theorem IsExpiry_false_inside_margin_and_past :
    (Sample.cached (1001 * Second)).IsExpiry (1000 * Second) = false ∧
    (Sample.cached (990 * Second)).IsExpiry (1000 * Second) = false ∧
    (Sample.cached (990 * Second)).GetToken
        (Sample.env (.response 200 "ok") (Sample.loginOk (4600 * Second)) ModelResBody.zero
          ModelSearchResBody.zero)
        (Sample.start (1000 * Second))
      = (.ok "tok0", Sample.cached (990 * Second), Sample.start (1000 * Second)) :=
  ⟨rfl, rfl, rfl⟩

/-- C3 (code defect): with the clock at 1000 s a token that expires 3500 s later (more than
600 s ahead) is reported expired, so `GetToken` logs in again and replaces the cached token;
and after a login answered with `tok1` and expiry now+3600 s, a `GetToken` made 100 s later
(within the next 3000 s) performs a second login exchange. -/
theorem IsExpiry_true_beyond_margin :
    (Sample.cached (4500 * Second)).IsExpiry (1000 * Second) = true ∧
    ((Sample.cached (4500 * Second)).GetToken
        (Sample.env (.response 200 "ok") (Sample.loginOk (8100 * Second)) ModelResBody.zero
          ModelSearchResBody.zero)
        (Sample.start (1000 * Second))).2.2.log.length = 1 ∧
    (let env := Sample.env (.response 200 "ok") (Sample.loginOk (4600 * Second))
        ModelResBody.zero ModelSearchResBody.zero
     let first := (NewAuth "user" "secret").GetToken env (Sample.start (1000 * Second))
     let second := first.2.1.GetToken env { now := 1100 * Second, log := first.2.2.log }
     first.1 = .ok "tok1" ∧ first.2.1.Expiry = some (4600 * Second) ∧
     first.2.2.log.length = 1 ∧ second.2.2.log.length = 2) :=
  ⟨rfl, rfl, rfl, rfl, rfl, rfl⟩

/-! ## Create -/

/-- C1 (code defect): `Create` never looks at the error of `doHttpPost`. For a non-empty
document, when the model endpoint answers HTTP 500, and when the transport fails, the
envelope keeps its zero value and `Create` returns `(true, nil, nil)`. -/
theorem Create_swallows_exchange_failure :
    (Sample.client.Create
        (Sample.env (.response 500 "oops") (Sample.loginOk (4600 * Second)) ModelResBody.zero
          ModelSearchResBody.zero)
        Sample.doc (Sample.start (1000 * Second))).1 = (true, none, none) ∧
    (Sample.client.doHttpPost
        (Sample.env (.response 500 "oops") (Sample.loginOk (4600 * Second)) ModelResBody.zero
          ModelSearchResBody.zero)
        (QxpBaseServerPath ++ Sample.client.buildApiPath "create") "json"
        (Sample.env (.response 500 "oops") (Sample.loginOk (4600 * Second)) ModelResBody.zero
          ModelSearchResBody.zero).unmarshalModel
        ModelResBody.zero (Sample.start (1000 * Second))).1
      = some "http error:500" ∧
    (Sample.client.Create
        (Sample.env (.failure "timeout") (Sample.loginOk (4600 * Second)) ModelResBody.zero
          ModelSearchResBody.zero)
        Sample.doc (Sample.start (1000 * Second))).1 = (true, none, none) :=
  ⟨rfl, rfl, rfl⟩

/-! ## Delete, DeleteByQuery, Update -/

/-- C6: for `Delete` with a non-empty id, `DeleteByQuery` with a non-empty filter and `Update`
with a non-empty document, if the exchange (`doHttpPost` on the marshalled body) ends with no
error and the decoded envelope `r`, the operation returns `(true, r.Data.Count, nil)` when
`r.Code = 0` and `(false, 0, error r.Msg)` otherwise. -/
theorem delete_update_translate_envelope (env : Env) (client : QxDataModelClient)
    (w w1 : World) (r : ModelResBody) :
    (∀ (id bytes : String), id ≠ "" → env.marshal (termRequestBody id) = .ok bytes →
      client.doHttpPost env (QxpBaseServerPath ++ client.buildApiPath "delete") bytes
        env.unmarshalModel ModelResBody.zero w = (none, r, w1) →
      client.Delete env id w
        = (if r.Code = 0 then (true, r.Data.Count, none) else (false, 0, some r.Msg), w1)) ∧
    (∀ (query : Document) (bytes : String), len query ≠ 0 →
      env.marshal (Value.map (some [("query", Value.map query)])) = .ok bytes →
      client.doHttpPost env (QxpBaseServerPath ++ client.buildApiPath "delete") bytes
        env.unmarshalModel ModelResBody.zero w = (none, r, w1) →
      client.DeleteByQuery env query w
        = (if r.Code = 0 then (true, r.Data.Count, none) else (false, 0, some r.Msg), w1)) ∧
    (∀ (data query : Document) (bytes : String), len data ≠ 0 →
      env.marshal (Value.map (some [("entity", Value.map data)])) = .ok bytes →
      client.doHttpPost env (QxpBaseServerPath ++ client.buildApiPath "update") bytes
        env.unmarshalModel ModelResBody.zero w = (none, r, w1) →
      client.Update env data query w
        = (if r.Code = 0 then (true, r.Data.Count, none) else (false, 0, some r.Msg), w1)) := by
  refine ⟨?_, ?_, ?_⟩
  · intro id bytes hid hm hp
    unfold QxDataModelClient.Delete
    rw [empty_id_guard hid]
    simp only [Bool.false_eq_true, if_false, hm, hp]
    by_cases hc : r.Code = 0 <;> simp [hc]
  · intro query bytes hq hm hp
    unfold QxDataModelClient.DeleteByQuery
    rw [nonempty_guard hq]
    simp only [Bool.false_eq_true, if_false, hm, hp]
    by_cases hc : r.Code = 0 <;> simp [hc]
  · intro data query bytes hd hm hp
    unfold QxDataModelClient.Update
    rw [nonempty_guard hd]
    simp only [Bool.false_eq_true, if_false, hm, hp]
    by_cases hc : r.Code = 0 <;> simp [hc]

/-- The scenario of C6: `Delete("X")` against a service answering
`code 1, count 0, entity {}, msg "not found"` yields `(false, 0, error "not found")`. -/
theorem delete_update_translate_envelope_witness :
    Sample.client.Delete
        (Sample.env (.response 200 "ok") (Sample.loginOk (4600 * Second))
          { Code := 1, Data := { Count := 0, Entity := some [] }, Msg := "not found" }
          ModelSearchResBody.zero)
        "X" (Sample.start (1000 * Second))
      = ((false, 0, some "not found"),
          { now := 1000 * Second,
            log := [(NewAuth "user" "secret").loginRequest
                      (Sample.env (.response 200 "ok") (Sample.loginOk (4600 * Second))
                        { Code := 1, Data := { Count := 0, Entity := some [] }, Msg := "not found" }
                        ModelSearchResBody.zero),
                    { url := QxpBaseServerPath ++ Sample.client.buildApiPath "delete",
                      contentType := JsonContentType, accessToken := some "tok1",
                      body := "json" }] }) :=
  (delete_update_translate_envelope
      (Sample.env (.response 200 "ok") (Sample.loginOk (4600 * Second))
        { Code := 1, Data := { Count := 0, Entity := some [] }, Msg := "not found" }
        ModelSearchResBody.zero)
      Sample.client (Sample.start (1000 * Second)) _
      { Code := 1, Data := { Count := 0, Entity := some [] }, Msg := "not found" }).1
    "X" "json" (by decide) rfl rfl

/-! ## Search: the decoded envelope -/

/-- C4 (as stated, refuted): the exchange succeeds and the decoded envelope has code 0, a nil
entities list and total 3, yet `Search` returns the total 0. -/
theorem Search_nil_entities_total_counterexample :
    (Sample.client.doHttpPost
        (Sample.env (.response 200 "ok") (Sample.loginOk (4600 * Second)) ModelResBody.zero
          { Code := 0, Data := { Total := 3, Entities := none }, Msg := "" })
        (QxpBaseServerPath ++ Sample.client.buildApiPath "search") "json"
        (Sample.env (.response 200 "ok") (Sample.loginOk (4600 * Second)) ModelResBody.zero
          { Code := 0, Data := { Total := 3, Entities := none }, Msg := "" }).unmarshalSearch
        ModelSearchResBody.zero (Sample.start (1000 * Second))).1 = none ∧
    (Sample.client.doHttpPost
        (Sample.env (.response 200 "ok") (Sample.loginOk (4600 * Second)) ModelResBody.zero
          { Code := 0, Data := { Total := 3, Entities := none }, Msg := "" })
        (QxpBaseServerPath ++ Sample.client.buildApiPath "search") "json"
        (Sample.env (.response 200 "ok") (Sample.loginOk (4600 * Second)) ModelResBody.zero
          { Code := 0, Data := { Total := 3, Entities := none }, Msg := "" }).unmarshalSearch
        ModelSearchResBody.zero (Sample.start (1000 * Second))).2.1
      = { Code := 0, Data := { Total := 3, Entities := none }, Msg := "" } ∧
    (Sample.client.Search
        (Sample.env (.response 200 "ok") (Sample.loginOk (4600 * Second)) ModelResBody.zero
          { Code := 0, Data := { Total := 3, Entities := none }, Msg := "" })
        { Query := some [], Page := 1, Size := 20, Sort' := none }
        (Sample.start (1000 * Second))).1 = (some [], 0, none) ∧
    (Sample.client.Search
        (Sample.env (.response 200 "ok") (Sample.loginOk (4600 * Second)) ModelResBody.zero
          { Code := 0, Data := { Total := 3, Entities := none }, Msg := "" })
        { Query := some [], Page := 1, Size := 20, Sort' := none }
        (Sample.start (1000 * Second))).1.2.1 ≠ 3 :=
  ⟨rfl, rfl, rfl, by decide⟩

/-- C4 (amended): for every search parameter value, when the exchange succeeds and the decoded
multi-entity envelope has code 0 and a nil entities list, `Search` returns an empty non-nil
sequence, no error, and the total 0, whatever total the envelope reports. -/
theorem Search_nil_entities_returns_empty_and_zero (env : Env) (client : QxDataModelClient)
    (p : DataModelSearchParam) (w w1 : World) (bytes : String) (r : ModelSearchResBody)
    (hm : env.marshal (DataModelSearchParam.toValue
        { Query := p.Query, Page := if p.Page = 0 then 1 else p.Page,
          Size := if p.Size = 0 then 20 else p.Size, Sort' := p.Sort' }) = .ok bytes)
    (hp : client.doHttpPost env (QxpBaseServerPath ++ client.buildApiPath "search") bytes
        env.unmarshalSearch ModelSearchResBody.zero w = (none, r, w1))
    (hc : r.Code = 0) (he : r.Data.Entities = none) :
    client.Search env p w = ((some [], 0, none), w1) := by
  have hn : (if (if p.Page == 0 then { p with Page := 1 } else p).Size == 0
        then { (if p.Page == 0 then { p with Page := 1 } else p) with Size := 20 }
        else (if p.Page == 0 then { p with Page := 1 } else p))
      = ({ Query := p.Query, Page := if p.Page = 0 then 1 else p.Page,
           Size := if p.Size = 0 then 20 else p.Size, Sort' := p.Sort' } :
          DataModelSearchParam) := by
    by_cases h1 : p.Page = 0 <;> by_cases h2 : p.Size = 0 <;> simp [h1, h2]
  unfold QxDataModelClient.Search
  simp only [hn, hm, hp, hc, he]
  rfl

/-- The amended C4 at a concrete exchange: the envelope reports total 3 with nil entities. -/
theorem Search_nil_entities_returns_empty_and_zero_witness :
    (Sample.client.Search
        (Sample.env (.response 200 "ok") (Sample.loginOk (4600 * Second)) ModelResBody.zero
          { Code := 0, Data := { Total := 3, Entities := none }, Msg := "" })
        { Query := some [], Page := 0, Size := 0, Sort' := none }
        (Sample.start (1000 * Second))).1 = (some [], 0, none) :=
  congrArg Prod.fst
    (Search_nil_entities_returns_empty_and_zero
      (Sample.env (.response 200 "ok") (Sample.loginOk (4600 * Second)) ModelResBody.zero
        { Code := 0, Data := { Total := 3, Entities := none }, Msg := "" })
      Sample.client { Query := some [], Page := 0, Size := 0, Sort' := none }
      (Sample.start (1000 * Second)) _ "json"
      { Code := 0, Data := { Total := 3, Entities := none }, Msg := "" } rfl rfl rfl rfl)

/-! ## What an operation puts on the wire -/

theorem GetToken_log (env : Env) (auth : Auth) (w : World) :
    (auth.GetToken env w).2.2.log = w.log ∨
    (auth.GetToken env w).2.2.log = w.log ++ [auth.loginRequest env] := by
  unfold Auth.GetToken World.exchange
  split
  · exact Or.inl rfl
  · refine Or.inr ?_
    cases env.send w (auth.loginRequest env) with
    | failure err => rfl
    | response status body =>
      dsimp only
      rcases hu : env.unmarshalToken body TokenResponseBody.zero with ⟨r, _ | e⟩
      · dsimp only
        split <;> rfl
      · rfl

theorem loginRequest_accessToken (env : Env) (auth : Auth) :
    (auth.loginRequest env).accessToken = none := rfl

/-- Every request `doHttpPost` adds to the log is the login call of `GetToken` or the POST of
`requestByte` to `url`; only the latter carries an `Access-Token` header. -/
theorem doHttpPost_sent {β : Type} (env : Env) (client : QxDataModelClient) (url bytes : String)
    (um : String → β → β × Option Error) (v : β) (w : World) :
    ∃ ext, (client.doHttpPost env url bytes um v w).2.2.log = w.log ++ ext ∧
      ∀ r ∈ ext, r.accessToken ≠ none → r.url = url ∧ r.body = bytes := by
  unfold QxDataModelClient.doHttpPost
  cases hn : env.newRequest url with
  | some err => exact ⟨[], by simp, by simp⟩
  | none =>
    dsimp only
    have hlog := GetToken_log env client.Auth w
    rcases hg : client.Auth.GetToken env w with ⟨tok | tok, a, w1⟩
    · rw [hg] at hlog
      dsimp only at hlog ⊢
      rcases hlog with h | h
      · exact ⟨[], by simp [h], by simp⟩
      · refine ⟨[client.Auth.loginRequest env], h, ?_⟩
        intro r hr hacc
        rw [List.mem_singleton] at hr
        subst hr
        exact absurd (loginRequest_accessToken env client.Auth) hacc
    · rw [hg] at hlog
      dsimp only at hlog ⊢
      have key : ∀ x : Option Error × β × World,
          x.2.2.log = w1.log ++
            [{ url := url, contentType := JsonContentType, accessToken := some tok,
               body := bytes }] →
          ∃ ext, x.2.2.log = w.log ++ ext ∧
            ∀ r ∈ ext, r.accessToken ≠ none → r.url = url ∧ r.body = bytes := by
        intro x hx
        rcases hlog with h | h
        · refine ⟨[(⟨url, JsonContentType, some tok, bytes⟩ : Request)], by rw [hx, h], ?_⟩
          intro r hr _
          rw [List.mem_singleton] at hr
          subst hr
          exact ⟨rfl, rfl⟩
        · refine ⟨[client.Auth.loginRequest env,
            (⟨url, JsonContentType, some tok, bytes⟩ : Request)],
            by rw [hx, h]; simp, ?_⟩
          intro r hr hacc
          simp only [List.mem_cons, List.mem_singleton, List.not_mem_nil, or_false] at hr
          rcases hr with hr | hr
          · subst hr
            exact absurd (loginRequest_accessToken env client.Auth) hacc
          · subst hr
            exact ⟨rfl, rfl⟩
      apply key
      unfold World.exchange
      cases env.send w1 _ with
      | failure err => rfl
      | response status body =>
        dsimp only
        split
        · rfl
        · rcases um body v with ⟨v1, _ | e⟩ <;> rfl

/-- Once the url parses and `GetToken` yields a token, `doHttpPost` sends exactly one more
request: `requestByte` to `url` with that token attached. -/
theorem doHttpPost_sends {β : Type} (env : Env) (client : QxDataModelClient) (url bytes : String)
    (um : String → β → β × Option Error) (v : β) (w w1 : World) (token : String) (a : Auth)
    (hn : env.newRequest url = none) (hg : client.Auth.GetToken env w = (.ok token, a, w1)) :
    (client.doHttpPost env url bytes um v w).2.2.log
      = w1.log ++ [{ url := url, contentType := JsonContentType, accessToken := some token,
                     body := bytes }] := by
  unfold QxDataModelClient.doHttpPost
  simp only [hn, hg]
  unfold World.exchange
  cases env.send w1 _ with
  | failure err => rfl
  | response status body =>
    dsimp only
    split
    · rfl
    · rcases um body v with ⟨v1, _ | e⟩ <;> rfl

theorem Search_param_normal (p : DataModelSearchParam) :
    (if (if p.Page == 0 then { p with Page := 1 } else p).Size == 0
      then { (if p.Page == 0 then { p with Page := 1 } else p) with Size := 20 }
      else (if p.Page == 0 then { p with Page := 1 } else p))
    = ({ Query := p.Query, Page := if p.Page = 0 then 1 else p.Page,
         Size := if p.Size = 0 then 20 else p.Size, Sort' := p.Sort' } :
        DataModelSearchParam) := by
  by_cases h1 : p.Page = 0 <;> by_cases h2 : p.Size = 0 <;> simp [h1, h2]

theorem Search_world (env : Env) (client : QxDataModelClient) (p : DataModelSearchParam)
    (w : World) (bytes : String)
    (hm : env.marshal (DataModelSearchParam.toValue
        { Query := p.Query, Page := if p.Page = 0 then 1 else p.Page,
          Size := if p.Size = 0 then 20 else p.Size, Sort' := p.Sort' }) = .ok bytes) :
    (client.Search env p w).2
      = (client.doHttpPost env (QxpBaseServerPath ++ client.buildApiPath "search") bytes
          env.unmarshalSearch ModelSearchResBody.zero w).2.2 := by
  unfold QxDataModelClient.Search
  simp only [Search_param_normal, hm]
  rcases client.doHttpPost env (QxpBaseServerPath ++ client.buildApiPath "search") bytes
    env.unmarshalSearch ModelSearchResBody.zero w with ⟨_ | e, r, w1⟩
  · dsimp only
    split
    · rfl
    · split <;> rfl
  · rfl

theorem Search_world_of_marshal_error (env : Env) (client : QxDataModelClient)
    (p : DataModelSearchParam) (w : World) (err : Error)
    (hm : env.marshal (DataModelSearchParam.toValue
        { Query := p.Query, Page := if p.Page = 0 then 1 else p.Page,
          Size := if p.Size = 0 then 20 else p.Size, Sort' := p.Sort' }) = .error err) :
    (client.Search env p w).2 = w := by
  unfold QxDataModelClient.Search
  simp only [Search_param_normal, hm]

/-- C8: the page sent is 1 if `p.Page` is 0 and `p.Page` otherwise, the size sent is 20 if
`p.Size` is 0 and `p.Size` otherwise, and neither is 0. Every model request `Search` adds to the
log goes to the search path and its body is the encoding of the object with `query` bound to
`p.Query`, `page` and `size` bound to those two numbers and `sort` bound to the strings of
`p.Sort` (null for the nil slice); and when that object encodes, the url parses and a token is
obtained, `Search` does send that request. -/
theorem Search_sends_normalized_param (env : Env) (client : QxDataModelClient)
    (p : DataModelSearchParam) (w : World) :
    (if p.Page = 0 then (1 : Int) else p.Page) ≠ 0 ∧
    (if p.Size = 0 then (20 : Int) else p.Size) ≠ 0 ∧
    (∃ ext, (client.Search env p w).2.log = w.log ++ ext ∧
      ∀ r ∈ ext, r.accessToken ≠ none →
        r.url = QxpBaseServerPath ++ client.buildApiPath "search" ∧
        env.marshal
          (Value.map (some [
            ("query", Value.map p.Query),
            ("page", Value.num (if p.Page = 0 then 1 else p.Page)),
            ("size", Value.num (if p.Size = 0 then 20 else p.Size)),
            ("sort", match p.Sort' with
              | none => Value.null
              | some xs => Value.list (xs.map Value.str))]))
          = .ok r.body) ∧
    (∀ (bytes token : String) (a : Auth) (w1 : World),
      env.marshal
      (Value.map (some [
        ("query", Value.map p.Query),
        ("page", Value.num (if p.Page = 0 then 1 else p.Page)),
        ("size", Value.num (if p.Size = 0 then 20 else p.Size)),
        ("sort", match p.Sort' with
          | none => Value.null
          | some xs => Value.list (xs.map Value.str))]))
        = .ok bytes →
      env.newRequest (QxpBaseServerPath ++ client.buildApiPath "search") = none →
      client.Auth.GetToken env w = (.ok token, a, w1) →
      (client.Search env p w).2.log
        = w1.log ++ [⟨QxpBaseServerPath ++ client.buildApiPath "search", JsonContentType,
                      some token, bytes⟩]) := by
  have hv :
      (Value.map (some [
        ("query", Value.map p.Query),
        ("page", Value.num (if p.Page = 0 then 1 else p.Page)),
        ("size", Value.num (if p.Size = 0 then 20 else p.Size)),
        ("sort", match p.Sort' with
          | none => Value.null
          | some xs => Value.list (xs.map Value.str))]))
      = DataModelSearchParam.toValue
          { Query := p.Query, Page := if p.Page = 0 then 1 else p.Page,
            Size := if p.Size = 0 then 20 else p.Size, Sort' := p.Sort' } := rfl
  rw [hv]
  refine ⟨?_, ?_, ?_, ?_⟩
  · split
    · decide
    · assumption
  · split
    · decide
    · assumption
  · cases hm : env.marshal (DataModelSearchParam.toValue
        { Query := p.Query, Page := if p.Page = 0 then 1 else p.Page,
          Size := if p.Size = 0 then 20 else p.Size, Sort' := p.Sort' }) with
    | error err =>
      refine ⟨[], ?_, by simp⟩
      rw [Search_world_of_marshal_error env client p w err hm]
      simp
    | ok bytes =>
      rw [Search_world env client p w bytes hm]
      obtain ⟨ext, hlog, hext⟩ := doHttpPost_sent env client
        (QxpBaseServerPath ++ client.buildApiPath "search") bytes env.unmarshalSearch
        ModelSearchResBody.zero w
      refine ⟨ext, hlog, ?_⟩
      intro r hr hacc
      obtain ⟨h1, h2⟩ := hext r hr hacc
      exact ⟨h1, by rw [h2]⟩
  · intro bytes token a w1 hm hn hg
    rw [Search_world env client p w bytes hm]
    exact doHttpPost_sends env client _ bytes _ _ w w1 token a hn hg

/-- The scenarios of C8: `Search` with page 0 and size 0 logs in and then sends page 1,
size 20; with page 5 and size 50 it sends page 5, size 50. -/
theorem Search_sends_normalized_param_witness :
    (Sample.client.Search Sample.searchEnv
        { Query := some [], Page := 0, Size := 0, Sort' := none }
        (Sample.start (1000 * Second))).2.log
      = [(NewAuth "user" "secret").loginRequest Sample.searchEnv,
         ⟨QxpBaseServerPath ++ Sample.client.buildApiPath "search", JsonContentType,
           some "tok1", "page=1,size=20"⟩] ∧
    (Sample.client.Search Sample.searchEnv
        { Query := some [], Page := 5, Size := 50, Sort' := some ["name"] }
        (Sample.start (1000 * Second))).2.log
      = [(NewAuth "user" "secret").loginRequest Sample.searchEnv,
         ⟨QxpBaseServerPath ++ Sample.client.buildApiPath "search", JsonContentType,
           some "tok1", "page=5,size=50"⟩] :=
  ⟨(Search_sends_normalized_param Sample.searchEnv Sample.client
      { Query := some [], Page := 0, Size := 0, Sort' := none }
      (Sample.start (1000 * Second))).2.2.2
    "page=1,size=20" "tok1" _ _ rfl rfl rfl,
   (Search_sends_normalized_param Sample.searchEnv Sample.client
      { Query := some [], Page := 5, Size := 50, Sort' := some ["name"] }
      (Sample.start (1000 * Second))).2.2.2
    "page=5,size=50" "tok1" _ _ rfl rfl rfl⟩

/-! ## Update and its filter -/

theorem Update_world (env : Env) (client : QxDataModelClient) (d q : Document) (w : World)
    (bytes : String) (hd : len d ≠ 0)
    (hm : env.marshal (Value.map (some [("entity", Value.map d)])) = .ok bytes) :
    (client.Update env d q w).2
      = (client.doHttpPost env (QxpBaseServerPath ++ client.buildApiPath "update") bytes
          env.unmarshalModel ModelResBody.zero w).2.2 := by
  unfold QxDataModelClient.Update
  rw [nonempty_guard hd]
  simp only [Bool.false_eq_true, if_false, hm]
  rcases client.doHttpPost env (QxpBaseServerPath ++ client.buildApiPath "update") bytes
    env.unmarshalModel ModelResBody.zero w with ⟨_ | e, r, w1⟩
  · dsimp only
    split <;> rfl
  · rfl

theorem Update_world_of_empty (env : Env) (client : QxDataModelClient) (d q : Document)
    (w : World) (hd : len d = 0) : (client.Update env d q w).2 = w := by
  unfold QxDataModelClient.Update
  cases d with
  | none => rfl
  | some kvs =>
    have : kvs.length = 0 := hd
    simp [len, this]

theorem Update_world_of_marshal_error (env : Env) (client : QxDataModelClient) (d q : Document)
    (w : World) (err : Error)
    (hm : env.marshal (Value.map (some [("entity", Value.map d)])) = .error err) :
    (client.Update env d q w).2 = w := by
  unfold QxDataModelClient.Update
  split
  · rfl
  · simp only [hm]

/-- C10: `Update` does not depend on its filter. For every document `d` and filters `q1`, `q2`,
in the same environment and world `Update d q1` and `Update d q2` return the same flag, count
and error and leave the same log of calls; every model request `Update` adds to the log goes to
the update path with the encoding of the map with the single key `entity` bound to `d` as its
body; and for a non-empty `d` that encodes, once the url parses and a token is obtained, both
calls do send that request. -/
theorem Update_ignores_filter (env : Env) (client : QxDataModelClient) (d q1 q2 : Document)
    (w : World) :
    client.Update env d q1 w = client.Update env d q2 w ∧
    (∃ ext, (client.Update env d q1 w).2.log = w.log ++ ext ∧
      ∀ r ∈ ext, r.accessToken ≠ none →
        r.url = QxpBaseServerPath ++ client.buildApiPath "update" ∧
        env.marshal (Value.map (some [("entity", Value.map d)])) = .ok r.body) ∧
    (∀ (bytes token : String) (a : Auth) (w1 : World), len d ≠ 0 →
      env.marshal (Value.map (some [("entity", Value.map d)])) = .ok bytes →
      env.newRequest (QxpBaseServerPath ++ client.buildApiPath "update") = none →
      client.Auth.GetToken env w = (.ok token, a, w1) →
      (client.Update env d q1 w).2.log
        = w1.log ++ [⟨QxpBaseServerPath ++ client.buildApiPath "update", JsonContentType,
                      some token, bytes⟩] ∧
      (client.Update env d q2 w).2.log
        = w1.log ++ [⟨QxpBaseServerPath ++ client.buildApiPath "update", JsonContentType,
                      some token, bytes⟩]) := by
  refine ⟨rfl, ?_, ?_⟩
  · by_cases hd : len d = 0
    · exact ⟨[], by rw [Update_world_of_empty env client d q1 w hd]; simp, by simp⟩
    · cases hm : env.marshal (Value.map (some [("entity", Value.map d)])) with
      | error err =>
        exact ⟨[], by rw [Update_world_of_marshal_error env client d q1 w err hm]; simp,
          by simp⟩
      | ok bytes =>
        rw [Update_world env client d q1 w bytes hd hm]
        obtain ⟨ext, hlog, hext⟩ := doHttpPost_sent env client
          (QxpBaseServerPath ++ client.buildApiPath "update") bytes env.unmarshalModel
          ModelResBody.zero w
        refine ⟨ext, hlog, ?_⟩
        intro r hr hacc
        obtain ⟨h1, h2⟩ := hext r hr hacc
        exact ⟨h1, by rw [h2]⟩
  · intro bytes token a w1 hd hm hn hg
    rw [Update_world env client d q1 w bytes hd hm, Update_world env client d q2 w bytes hd hm]
    exact ⟨doHttpPost_sends env client _ bytes _ _ w w1 token a hn hg,
      doHttpPost_sends env client _ bytes _ _ w w1 token a hn hg⟩

/-- The scenario of C10: an update with a nil filter and one with a term filter both log in and
send the same single request to the update path. -/
theorem Update_ignores_filter_witness :
    (Sample.client.Update
        (Sample.env (.response 200 "ok") (Sample.loginOk (4600 * Second))
          { Code := 0, Data := { Count := 1, Entity := none }, Msg := "" }
          ModelSearchResBody.zero)
        Sample.doc none (Sample.start (1000 * Second))).2.log
      = [(NewAuth "user" "secret").loginRequest
            (Sample.env (.response 200 "ok") (Sample.loginOk (4600 * Second))
              { Code := 0, Data := { Count := 1, Entity := none }, Msg := "" }
              ModelSearchResBody.zero),
         ⟨QxpBaseServerPath ++ Sample.client.buildApiPath "update", JsonContentType,
           some "tok1", "json"⟩] ∧
    (Sample.client.Update
        (Sample.env (.response 200 "ok") (Sample.loginOk (4600 * Second))
          { Code := 0, Data := { Count := 1, Entity := none }, Msg := "" }
          ModelSearchResBody.zero)
        Sample.doc (some [("term", Value.map (some [("_id", Value.str "X")]))])
        (Sample.start (1000 * Second))).2.log
      = [(NewAuth "user" "secret").loginRequest
            (Sample.env (.response 200 "ok") (Sample.loginOk (4600 * Second))
              { Code := 0, Data := { Count := 1, Entity := none }, Msg := "" }
              ModelSearchResBody.zero),
         ⟨QxpBaseServerPath ++ Sample.client.buildApiPath "update", JsonContentType,
           some "tok1", "json"⟩] :=
  (Update_ignores_filter
      (Sample.env (.response 200 "ok") (Sample.loginOk (4600 * Second))
        { Code := 0, Data := { Count := 1, Entity := none }, Msg := "" }
        ModelSearchResBody.zero)
      Sample.client Sample.doc none
      (some [("term", Value.map (some [("_id", Value.str "X")]))])
      (Sample.start (1000 * Second))).2.2
    "json" "tok1" _ _ (by decide) rfl rfl rfl

/-! ## BatchCreate -/

theorem CreateRun_length {env : Env} {client : QxDataModelClient} {docs ents : List Document}
    {w w1 : World} (h : CreateRun env client docs w ents w1) : ents.length = docs.length := by
  induction h with
  | nil w => rfl
  | cons _ _ ih => simp [ih]

theorem loop_of_run {env : Env} {client : QxDataModelClient} {docs ents : List Document}
    {w w1 : World} (h : CreateRun env client docs w ents w1) (l : List Document) :
    QxDataModelClient.BatchCreate.loop env client docs (some l) w
      = ((some (l ++ ents), none), w1) := by
  induction h generalizing l with
  | nil w => simp [QxDataModelClient.BatchCreate.loop]
  | cons hc _ ih =>
    unfold QxDataModelClient.BatchCreate.loop
    simp only [hc, Option.getD_some]
    rw [ih]
    simp

theorem loop_of_failure {env : Env} {client : QxDataModelClient}
    {pre post ents : List Document} {d ent : Document} {w w1 w2 : World} {flag : Bool}
    {err : Error} (h : CreateRun env client pre w ents w1)
    (hc : client.Create env d w1 = ((flag, ent, some err), w2)) (acc : Option (List Document)) :
    QxDataModelClient.BatchCreate.loop env client (pre ++ d :: post) acc w
      = ((none, some err), w2) := by
  induction h generalizing acc with
  | nil w =>
    simp only [List.nil_append]
    unfold QxDataModelClient.BatchCreate.loop
    simp only [hc]
  | cons hc1 _ ih =>
    simp only [List.cons_append]
    unfold QxDataModelClient.BatchCreate.loop
    simp only [hc1]
    exact ih hc _

theorem run_or_failure (env : Env) (client : QxDataModelClient) (docs : List Document) :
    ∀ w : World,
      (∃ ents w1, CreateRun env client docs w ents w1) ∨
      (∃ pre d post ents w1 flag ent err w2, docs = pre ++ d :: post ∧
        CreateRun env client pre w ents w1 ∧
        client.Create env d w1 = ((flag, ent, some err), w2)) := by
  induction docs with
  | nil => intro w; exact Or.inl ⟨[], w, CreateRun.nil w⟩
  | cons d ds ih =>
    intro w
    rcases hc : client.Create env d w with ⟨⟨flag, ent, _ | err⟩, w1⟩
    · rcases ih w1 with ⟨ents, w2, hr⟩ | ⟨pre, d1, post, ents, w2, fl, en, er, w3, hd, hr, hf⟩
      · exact Or.inl ⟨ent :: ents, w2, CreateRun.cons hc hr⟩
      · refine Or.inr ⟨d :: pre, d1, post, ent :: ents, w2, fl, en, er, w3, ?_,
          CreateRun.cons hc hr, hf⟩
        rw [hd]
        rfl
    · exact Or.inr ⟨[], d, ds, [], w, flag, ent, err, w1, rfl, CreateRun.nil w, hc⟩

/-- C7: `BatchCreate` calls `Create` on the documents one at a time in list order. If every
call returns no error, it returns with no error the entities of those calls in the same order
(as many as there are documents; the nil slice when there is none) and the world the last call
left. If the calls on a prefix `pre` return no error and the call on the next document fails,
it returns the nil slice with that error and the world that failing call left, whatever
documents follow. One of the two always happens. -/
theorem BatchCreate_sequential (env : Env) (client : QxDataModelClient)
    (docs : List Document) (w : World) :
    (∀ ents w1, CreateRun env client docs w ents w1 →
      client.BatchCreate env docs w = ((if docs.isEmpty then none else some ents, none), w1) ∧
      ents.length = docs.length) ∧
    (∀ pre d post ents w1 flag ent err w2, docs = pre ++ d :: post →
      CreateRun env client pre w ents w1 →
      client.Create env d w1 = ((flag, ent, some err), w2) →
      client.BatchCreate env docs w = ((none, some err), w2)) ∧
    ((∃ ents w1, CreateRun env client docs w ents w1) ∨
      (∃ pre d post ents w1 flag ent err w2, docs = pre ++ d :: post ∧
        CreateRun env client pre w ents w1 ∧
        client.Create env d w1 = ((flag, ent, some err), w2))) := by
  refine ⟨?_, ?_, run_or_failure env client docs w⟩
  · intro ents w1 h
    refine ⟨?_, CreateRun_length h⟩
    cases h with
    | nil w => rfl
    | cons hc hr =>
      unfold QxDataModelClient.BatchCreate QxDataModelClient.BatchCreate.loop
      simp only [hc, Option.getD_none, List.nil_append]
      rw [loop_of_run hr]
      rfl
  · intro pre d post ents w1 flag ent err w2 hd hr hc
    subst hd
    exact loop_of_failure hr hc none

/-- The scenarios of C7 with the clock at 1000 s: two documents are created in order; and with
an empty document in second place the batch stops there with its error, in the world the
second call left, and the third document is never sent. -/
theorem BatchCreate_sequential_witness :
    Sample.client.BatchCreate Sample.okEnv [Sample.doc, Sample.doc]
        (Sample.start (1000 * Second))
      = ((some [Sample.entity, Sample.entity], none),
          (Sample.client.Create Sample.okEnv Sample.doc
            (Sample.client.Create Sample.okEnv Sample.doc (Sample.start (1000 * Second))).2).2) ∧
    Sample.client.BatchCreate Sample.okEnv [Sample.doc, some [], Sample.doc]
        (Sample.start (1000 * Second))
      = ((none, some "参数不能为空"),
          (Sample.client.Create Sample.okEnv Sample.doc (Sample.start (1000 * Second))).2) :=
  ⟨((BatchCreate_sequential Sample.okEnv Sample.client [Sample.doc, Sample.doc]
        (Sample.start (1000 * Second))).1 [Sample.entity, Sample.entity] _
        (CreateRun.cons rfl
          (CreateRun.cons rfl (CreateRun.nil _)))).1,
   (BatchCreate_sequential Sample.okEnv Sample.client [Sample.doc, some [], Sample.doc]
        (Sample.start (1000 * Second))).2.1 [Sample.doc] (some []) [Sample.doc]
        [Sample.entity] _ false none "参数不能为空" _ rfl
        (CreateRun.cons rfl (CreateRun.nil _)) rfl⟩

/-! ## Where a refreshed token lives -/

/-- C9 (code defect): with the clock standing at 1000 s, `Get("X")` on a client logs in
(answer `tok1`, expiry 4600 s) and sends its request with `tok1`. The token has 3600 s left,
more than the 600 s margin, and `IsExpiry` too reports the `Auth` that call filled as not
expired; yet a second `Get("X")` on the same client logs in again, so the log holds two login
calls. Called directly on an `Auth`, `GetToken` does keep the token: a second call on the
`Auth` the first one left returns `tok1` and adds nothing to the log. -/
theorem client_drops_refreshed_token :
    (Sample.client.Get Sample.okEnv "X" (Sample.start (1000 * Second))).1
      = (Sample.entity, none) ∧
    (Sample.client.Get Sample.okEnv "X" (Sample.start (1000 * Second))).2.log
      = [(NewAuth "user" "secret").loginRequest Sample.okEnv,
         ⟨QxpBaseServerPath ++ Sample.client.buildApiPath "get", JsonContentType,
           some "tok1", "json"⟩] ∧
    (Sample.client.Auth.GetToken Sample.okEnv (Sample.start (1000 * Second))).2.1.Token
      = "tok1" ∧
    (Sample.client.Auth.GetToken Sample.okEnv (Sample.start (1000 * Second))).2.1.Expiry
      = some (4600 * Second) ∧
    (Sample.client.Get Sample.okEnv "X" (Sample.start (1000 * Second))).2.now
      = 1000 * Second ∧
    (Sample.client.Auth.GetToken Sample.okEnv (Sample.start (1000 * Second))).2.1.IsExpiry
        (1000 * Second) = false ∧
    (Sample.client.Get Sample.okEnv "X"
        (Sample.client.Get Sample.okEnv "X" (Sample.start (1000 * Second))).2).2.log
      = [(NewAuth "user" "secret").loginRequest Sample.okEnv,
         ⟨QxpBaseServerPath ++ Sample.client.buildApiPath "get", JsonContentType,
           some "tok1", "json"⟩,
         (NewAuth "user" "secret").loginRequest Sample.okEnv,
         ⟨QxpBaseServerPath ++ Sample.client.buildApiPath "get", JsonContentType,
           some "tok1", "json"⟩] ∧
    ((Sample.client.Auth.GetToken Sample.okEnv (Sample.start (1000 * Second))).2.1.GetToken
        Sample.okEnv
        (Sample.client.Auth.GetToken Sample.okEnv (Sample.start (1000 * Second))).2.2).1
      = .ok "tok1" ∧
    ((Sample.client.Auth.GetToken Sample.okEnv (Sample.start (1000 * Second))).2.1.GetToken
        Sample.okEnv
        (Sample.client.Auth.GetToken Sample.okEnv (Sample.start (1000 * Second))).2.2).2.2.log
      = [(NewAuth "user" "secret").loginRequest Sample.okEnv] :=
  ⟨rfl, rfl, rfl, rfl, rfl, rfl, rfl, rfl, rfl⟩

end polysdk
